import Mathlib

/-!
Verification of the MedicalNet volume preprocessing pipeline
(`MedicalNet_dual/datasets/custom_dataset.py` and
`MedicalNet_single/datasets/custom_dataset.py`).

Shallow embedding conventions:
* A 3D numpy array is a `Vol`: three dimensions plus a total valuation
  function on natural indices.  Out-of-range values of the function are a
  modelling artifact; all enumerations (`allIdx`, `fgPixels`, `diffList`)
  only touch in-range indices, exactly as numpy masks do in C order.
* Intensities are exact rationals.  numpy computes `pixels.std()` as the
  floating-point square root of the population variance; since that square
  root is in general irrational, the embedded normalizer takes the standard
  deviation `s` as an explicit argument, and theorems pin it down by the
  hypotheses `0 ≤ s` and `s ^ 2 = fgVar v`.
* A numpy value that is NaN or Inf (mean/std of an empty selection, or a
  division by a zero std) is modelled as `none` in an `Option ℚ` valued
  output volume (`OVol`).  numpy only warns in these situations, it does
  not raise, so the embedded normalizer is a total function.
* Python exceptions are modelled with `Except PyErr`.
* `np.random.normal(0, 1, size=volume.shape)` is an external entropy
  source; it is passed in as an explicit noise field.
-/

/-- Python exceptions that the embedded code can raise. -/
inductive PyErr where
  | attributeError
  | indexError
  | assertionError
  | keyError
  | valueError
  | zeroDivisionError
  | fileNotFoundError
deriving DecidableEq, Repr

/-- A dense 3D array of rational intensities, axes in C order (axis 0, 1, 2).
`val` is total; only indices below the dims are meaningful. -/
structure Vol where
  d0 : ℕ
  d1 : ℕ
  d2 : ℕ
  val : ℕ → ℕ → ℕ → ℚ

/-- An output volume whose entries may be non-finite floats (`none` models
NaN/Inf produced by numpy without raising). -/
structure OVol where
  d0 : ℕ
  d1 : ℕ
  d2 : ℕ
  val : ℕ → ℕ → ℕ → Option ℚ

/-- All in-range index triples of a volume, in C (row-major) order —
the order in which numpy boolean masks enumerate elements. -/
def allIdx (v : Vol) : List (ℕ × ℕ × ℕ) :=
  (List.range v.d0).flatMap fun i =>
    (List.range v.d1).flatMap fun j =>
      (List.range v.d2).map fun k => (i, j, k)

/-- `pixels = volume[volume > 0]`: the foreground intensities
(strictly positive voxels), flattened in C order. -/
def fgPixels (v : Vol) : List ℚ :=
  ((allIdx v).map fun p => v.val p.1 p.2.1 p.2.2).filter fun q => decide (0 < q)

/-- `xs.mean()` for a nonempty list (numpy returns NaN on an empty list;
that case is branched on separately in the normalizer). -/
def listMean (xs : List ℚ) : ℚ := xs.sum / xs.length

/-- Population variance, `mean((x - mean)²)`; numpy's `std()` is its
square root. -/
def listVar (xs : List ℚ) : ℚ :=
  ((xs.map fun x => (x - listMean xs) ^ 2).sum) / xs.length

/-- Foreground mean of a volume: `volume[volume > 0].mean()`. -/
def fgMean (v : Vol) : ℚ := listMean (fgPixels v)

/-- Foreground population variance of a volume; numpy's
`volume[volume > 0].std()` is `Real.sqrt (fgVar v)`. -/
def fgVar (v : Vol) : ℚ := listVar (fgPixels v)

/-- `__itensity_normalize_one_volume__(volume)`:

    pixels = volume[volume > 0]
    mean = pixels.mean()
    std  = pixels.std()
    out = (volume - mean)/std
    out_random = np.random.normal(0, 1, size = volume.shape)
    out[volume == 0] = out_random[volume == 0]
    return out

`noise` is the `np.random.normal` draw and `s` is `pixels.std()` (see the
header comment: theorems constrain `s` by `0 ≤ s ∧ s ^ 2 = fgVar v`).
When the foreground is empty, numpy's `mean`/`std` of an empty slice are
NaN (RuntimeWarning only, no exception), so every voxel not overwritten by
the mask assignment is non-finite (`none`); when `s = 0` the division
yields Inf/NaN, also `none`.  The mask assignment `out[volume == 0] = ...`
replaces exactly the voxels whose ORIGINAL intensity equals zero. -/
def itensity_normalize (v : Vol) (noise : ℕ → ℕ → ℕ → ℚ) (s : ℚ) : OVol :=
  { d0 := v.d0, d1 := v.d1, d2 := v.d2
    val := fun i j k =>
      if v.val i j k = 0 then some (noise i j k)
      else if fgPixels v = [] then none
      else if s = 0 then none
      else some ((v.val i j k - fgMean v) / s) }

/-- Round half to even, the rounding Python's `round` (used by scipy as
`int(round(shape * zoom))`) applies to a float. -/
def npRound (q : ℚ) : ℤ :=
  if q - Int.floor q < 1 / 2 then Int.floor q
  else if q - Int.floor q > 1 / 2 then Int.floor q + 1
  else if Int.floor q % 2 = 0 then Int.floor q else Int.floor q + 1

/-- Output length of `scipy.ndimage.zoom` along one axis:
`int(round(n * zoom))` with `zoom = target/n` (the float division
`self.input_X*1.0/x` of the source, exact here over ℚ). -/
def outDim (n target : ℕ) : ℕ :=
  (npRound ((n : ℚ) * ((target : ℚ) / (n : ℚ)))).toNat

/-- Index mapping of `scipy.ndimage.zoom(..., order=0)` (legacy
`grid_mode=False`): output index `o` on an axis of input length `inN` and
output length `outN` reads the input at the nearest integer to
`o * (inN - 1)/(outN - 1)`; when `outN = 1` the factor is taken to be `1`
(scipy's `where=zoom_div != 0` guard). -/
def zoomIdx (inN outN : ℕ) (o : ℕ) : ℕ :=
  (Int.floor ((o : ℚ) *
      (if outN = 1 then 1 else ((inN : ℚ) - 1) / ((outN : ℚ) - 1)) +
    1 / 2)).toNat

/-- `__resize_data__(data)`:

    [width, depth, height] = data.shape
    scale = [self.input_W*1.0/width, self.input_D*1.0/depth, self.input_H*1.0/height]
    data = ndimage.interpolation.zoom(data, scale, order=0)

Axis 0 is rescaled to `input_W`, axis 1 to `input_D`, axis 2 to `input_H`.
A zero-length axis makes the Python float division raise
`ZeroDivisionError` before scipy is reached. -/
def resize_data (v : Vol) (D H W : ℕ) : Except PyErr Vol :=
  if v.d0 = 0 ∨ v.d1 = 0 ∨ v.d2 = 0 then .error .zeroDivisionError
  else
    .ok { d0 := outDim v.d0 W, d1 := outDim v.d1 D, d2 := outDim v.d2 H
          val := fun i j k =>
            v.val (zoomIdx v.d0 (outDim v.d0 W) i)
                  (zoomIdx v.d1 (outDim v.d1 D) j)
                  (zoomIdx v.d2 (outDim v.d2 H) k) }

/-- The dims of a successfully produced volume. -/
def dimsOf : Except PyErr Vol → Option (ℕ × ℕ × ℕ)
  | .ok v => some (v.d0, v.d1, v.d2)
  | .error _ => none

/-- `np.min` of a nonempty axis list, as a left fold (0 is never used:
callers only pass nonempty lists, mirroring numpy which raises on empty). -/
def listMinD : List ℕ → ℕ
  | [] => 0
  | x :: xs => xs.foldl min x

/-- `np.max` of a nonempty axis list, as a left fold. -/
def listMaxD : List ℕ → ℕ
  | [] => 0
  | x :: xs => xs.foldl max x

/-- `np.where(volume != volume[0, 0, 0])`: the in-range index triples whose
value differs from the background value at the origin, in C order. -/
def diffList (v : Vol) : List (ℕ × ℕ × ℕ) :=
  (allIdx v).filter fun p => decide (v.val p.1 p.2.1 p.2.2 ≠ v.val 0 0 0)

/-- `__drop_invalid_range__(volume)` (classification branch, `label=None`):

    zero_value = volume[0, 0, 0]
    non_zeros_idx = np.where(volume != zero_value)
    [max_z, max_h, max_w] = np.max(np.array(non_zeros_idx), axis=1)
    [min_z, min_h, min_w] = np.min(np.array(non_zeros_idx), axis=1)
    return volume[min_z:max_z, min_h:max_h, min_w:max_w]

`np.max` of a zero-size array raises `ValueError`; the Python slice is
inclusive of the min index and exclusive of the max index. -/
def drop_invalid_range (v : Vol) : Except PyErr Vol :=
  match diffList v with
  | [] => .error .valueError
  | p :: rest =>
    let zs := (p :: rest).map fun q => q.1
    let hs := (p :: rest).map fun q => q.2.1
    let ws := (p :: rest).map fun q => q.2.2
    .ok { d0 := listMaxD zs - listMinD zs
          d1 := listMaxD hs - listMinD hs
          d2 := listMaxD ws - listMinD ws
          val := fun i j k =>
            v.val (listMinD zs + i) (listMinD hs + j) (listMinD ws + k) }

/-- Modelled from the spec: the axis-aligned sub-volume of `v` with
inclusive lower corner `(z0, y0, x0)` and exclusive upper corner
`(z1, y1, x1)` (the Python slice `v[z0:z1, y0:y1, x0:x1]`). -/
def crop (v : Vol) (z0 y0 x0 z1 y1 x1 : ℕ) : Vol :=
  { d0 := z1 - z0, d1 := y1 - y0, d2 := x1 - x0
    val := fun i j k => v.val (z0 + i) (y0 + j) (x0 + k) }

/-- Least axis-0 index of a voxel differing from the background value. -/
def minZb (v : Vol) : ℕ := listMinD ((diffList v).map fun q => q.1)

/-- Least axis-1 index of a voxel differing from the background value. -/
def minYb (v : Vol) : ℕ := listMinD ((diffList v).map fun q => q.2.1)

/-- Least axis-2 index of a voxel differing from the background value. -/
def minXb (v : Vol) : ℕ := listMinD ((diffList v).map fun q => q.2.2)

/-- Greatest axis-0 index of a voxel differing from the background value. -/
def maxZb (v : Vol) : ℕ := listMaxD ((diffList v).map fun q => q.1)

/-- Greatest axis-1 index of a voxel differing from the background value. -/
def maxYb (v : Vol) : ℕ := listMaxD ((diffList v).map fun q => q.2.1)

/-- Greatest axis-2 index of a voxel differing from the background value. -/
def maxXb (v : Vol) : ℕ := listMaxD ((diffList v).map fun q => q.2.2)

/-- Example volume for the Resampler shape claims. -/
def exVolC3 : Vol := ⟨5, 5, 5, fun _ _ _ => 0⟩

/-- Example volume of shape `(W, D, H) = (2, 3, 4)` for the identity claim. -/
def exVolC9 : Vol := ⟨2, 3, 4, fun i j k => (i : ℚ) + 5 * j + 25 * k⟩

/-- Example volume of shape `(D, H, W) = (2, 3, 4)` for the identity
counterexample. -/
def exVolC9b : Vol := ⟨2, 3, 4, fun _ _ _ => 0⟩

/-- Structure extensionality for `OVol`. -/
theorem OVol_ext_eq (x y : OVol) (h0 : x.d0 = y.d0) (h1 : x.d1 = y.d1)
    (h2 : x.d2 = y.d2) (hv : x.val = y.val) : x = y := by
  have hx : x = OVol.mk x.d0 x.d1 x.d2 x.val := rfl
  have hy : y = OVol.mk y.d0 y.d1 y.d2 y.val := rfl
  rw [hx, hy, h0, h1, h2, hv]

/-- Structure extensionality for `Vol`. -/
theorem Vol_ext_eq (x y : Vol) (h0 : x.d0 = y.d0) (h1 : x.d1 = y.d1)
    (h2 : x.d2 = y.d2) (hv : x.val = y.val) : x = y := by
  have hx : x = Vol.mk x.d0 x.d1 x.d2 x.val := rfl
  have hy : y = Vol.mk y.d0 y.d1 y.d2 y.val := rfl
  rw [hx, hy, h0, h1, h2, hv]

/-- Example volume for the Intensity Normalizer claims: a 1×1×4 row with
values `[0, 1, 3, -2]`.  Foreground `{1, 3}` has mean 2 and population
variance 1, so numpy's `std()` is exactly 1. -/
def exVolC1 : Vol :=
  ⟨1, 1, 4, fun _ _ k => if k = 1 then 1 else if k = 2 then 3 else if k = 3 then -2 else 0⟩

/-- Constant noise field used with `exVolC1`. -/
def exNoiseC1 : ℕ → ℕ → ℕ → ℚ := fun _ _ _ => 5

/-- All-background (all-zero) 2×2×2 volume for the degenerate-foreground
claim. -/
def exVolC2 : Vol := ⟨2, 2, 2, fun _ _ _ => 0⟩

/-- A non-constant noise field used with `exVolC2`. -/
def exNoiseC2 : ℕ → ℕ → ℕ → ℚ := fun i j k => (i : ℚ) + 2 * j + 4 * k

/-- Example 3×3×3 volume for the Range Clipper claim: background 0 at the
origin, differing voxels at `(0,0,1)` and `(2,2,2)`. -/
def exVolC5 : Vol :=
  ⟨3, 3, 3, fun i j k =>
    if i = 0 ∧ j = 0 ∧ k = 1 then 1
    else if i = 2 ∧ j = 2 ∧ k = 2 then 1 else 0⟩

/-- Constant 2×2×2 volume (every voxel 7) for the degenerate Range Clipper
claim. -/
def exVolC6 : Vol := ⟨2, 2, 2, fun _ _ _ => 7⟩

/-- Lexicographic comparison of char lists by Unicode code point — the
order Python's `sorted` uses on `str` (modelled on `Char.toNat` since the
comparison must be executable). -/
def lexLe : List Char → List Char → Bool
  | [], _ => true
  | _ :: _, [] => false
  | a :: as, b :: bs =>
    if a.toNat < b.toNat then true
    else if b.toNat < a.toNat then false
    else lexLe as bs

/-- Python's `<=` on strings: code-point lexicographic order. -/
def strLe (a b : String) : Prop := lexLe a.data b.data = true

instance : DecidableRel strLe := fun a b => by
  unfold strLe
  infer_instance

/-- The subdirectory names seen by `os.scandir` filtering (`entry.name for
entry in os.scandir(directory) if entry.is_dir()`); an entry is a
(name, is-directory) pair. -/
def dirNames (entries : List (String × Bool)) : List String :=
  (entries.filter fun e => e.2).map fun e => e.1

/-- `__find_classes__(directory)`:

    classes = sorted(entry.name for entry in os.scandir(directory) if entry.is_dir())
    if not classes:
        raise FileNotFoundError(...)
    class_to_idx = \x7bcls_name: i for i, cls_name in enumerate(classes)\x7d
    return classes, class_to_idx

The dict is modelled as an association list in insertion order. -/
def find_classes (entries : List (String × Bool)) :
    Except PyErr (List String × List (String × ℕ)) :=
  let classes := List.insertionSort strLe (dirNames entries)
  if classes = [] then .error .fileNotFoundError
  else .ok (classes, classes.enum.map fun p => (p.2, p.1))

/-- Example directory scan with subdirectories `B`, `A` and a plain file. -/
def exEntriesC8 : List (String × Bool) :=
  [("B", true), ("A", true), ("c.txt", false)]

/-- `__training_data_process__(data)` (classification branch): load, drop
the invalid range, resize, then intensity-normalize. -/
def training_data_process (v : Vol) (noise : ℕ → ℕ → ℕ → ℚ) (s : ℚ)
    (D H W : ℕ) : Except PyErr OVol :=
  match drop_invalid_range v with
  | .error e => .error e
  | .ok c =>
    match resize_data c D H W with
    | .error e => .error e
    | .ok r => .ok (itensity_normalize r noise s)

/-- `__testing_data_process__(data)` (classification branch): load, resize,
then intensity-normalize — the `__drop_invalid_range__` call is commented
out in the source. -/
def testing_data_process (v : Vol) (noise : ℕ → ℕ → ℕ → ℚ) (s : ℚ)
    (D H W : ℕ) : Except PyErr OVol :=
  match resize_data v D H W with
  | .error e => .error e
  | .ok r => .ok (itensity_normalize r noise s)

/-- A rank-4 tensor as a list of channel volumes. -/
def Tensor : Type := List OVol

/-- Single-modality `__nii2tensorarray__`: `np.reshape(data, [1, z, y, x])`
adds a leading channel axis of size 1 (the `float32` cast is the identity
on our exact rationals). -/
def nii2tensorarray_single (a : OVol) : Tensor := [a]

/-- Dual-modality `__nii2tensorarray__`: `np.reshape(data, [z, y, x])` is
the identity reshape (the `float32` cast is the identity here). -/
def nii2tensorarray_dual (a : OVol) : OVol := a

/-- `np.array([t1_img_array, t2_img_array])`: stack two volumes along a new
leading axis of size 2. -/
def stack2 (a b : OVol) : Tensor := [a, b]

/-- A training file entry of the single-modality dataset: one `.nii[.gz]`
file path plus the name of its parent (class) directory. -/
structure FileEntry where
  pathStr : String
  parentName : String
deriving DecidableEq

/-- The single-modality `CustomTumorDataset` instance state after
construction. -/
structure SingleState where
  root_dir : String
  paths : List FileEntry
  classes : List String
  class_to_idx : List (String × ℕ)
  input_D : ℕ
  input_H : ℕ
  input_W : ℕ
  phase : String
deriving DecidableEq

/-- A patient directory of the dual-modality dataset: its path, the name of
its parent (class) directory, and the precomputed glob results for
`*t1.nii.gz` and `*t2.nii.gz` inside it. -/
structure Patient where
  pathStr : String
  parentName : String
  t1Matches : List String
  t2Matches : List String
deriving DecidableEq

/-- The dual-modality `CustomTumorDataset` instance state (as it would be
after a hypothetical construction; see the constructor claim). -/
structure DualState where
  data_list : List String
  classes : List String
  class_to_idx : List (String × ℕ)
  paths : List Patient
  root_dir : String
  input_D : ℕ
  input_H : ℕ
  input_W : ℕ
  phase : String
  t1_image_list : List String
  t2_image_list : List String
deriving DecidableEq

/-- Result of a single-modality `__getitem__` call: `(tensor, label, path)`
in train mode, tensor only in test mode, Python `None` otherwise. -/
inductive SOut where
  | trainOut (t : Tensor) (classIdx : ℕ) (path : String)
  | testOut (t : Tensor)
  | noneOut

/-- Result of a dual-modality `__getitem__` call. -/
inductive DualOut where
  | trainOut (t : Tensor) (classIdx : ℕ) (path : String)
  | testOut (t : Tensor)
  | noneOut

/-- Python's `str.split()` with no argument: split on runs of whitespace
(modelled as the space character), discarding empty chunks. -/
def splitWsAux : List Char → List Char → List String
  | [], acc => if acc = [] then [] else [String.mk acc.reverse]
  | c :: cs, acc =>
    if c = ' ' then
      if acc = [] then splitWsAux cs []
      else String.mk acc.reverse :: splitWsAux cs []
    else splitWsAux cs (c :: acc)

/-- `line.split()` on a manifest line. -/
def splitWs (line : String) : List String := splitWsAux line.data []

/-- Single-modality `__getitem__(idx)`.  The filesystem is the oracle
`fs : path → Option Vol` (covering both the `os.path.isfile` assert and
`nibabel.load`); `noise` and `s` are the normalizer's random draw and
foreground std for this volume (see `itensity_normalize`).  The returned
state is the receiver's state after the call. -/
def getitem_single (st : SingleState) (fs : String → Option Vol)
    (noise : ℕ → ℕ → ℕ → ℚ) (s : ℚ) (idx : ℕ) :
    Except PyErr (SingleState × SOut) :=
  if st.phase = "train" then
    match st.paths[idx]? with
    | none => .error .indexError
    | some e =>
      match fs e.pathStr with
      | none => .error .assertionError
      | some img =>
        match training_data_process img noise s st.input_D st.input_H
            st.input_W with
        | .error er => .error er
        | .ok arr =>
          match st.class_to_idx.lookup e.parentName with
          | none => .error .keyError
          | some ci =>
            .ok (st, .trainOut (nii2tensorarray_single arr) ci e.pathStr)
  else if st.phase = "test" then
    match st.paths[idx]? with
    | none => .error .indexError
    | some e =>
      match fs e.pathStr with
      | none => .error .assertionError
      | some img =>
        match testing_data_process img noise s st.input_D st.input_H
            st.input_W with
        | .error er => .error er
        | .ok arr => .ok (st, .testOut (nii2tensorarray_single arr))
  else .ok (st, .noneOut)

/-- Dual-modality `__getitem__(idx)`.  In train mode the source appends the
resolved t1/t2 paths to `self.t1_image_list` / `self.t2_image_list`
(a mutation of the receiver); the returned state reflects the receiver
after a successful call (the `Except` model drops the partial mutation of
a failing call).  `n1, s1` and `n2, s2` are the per-volume normalizer
draws and stds for the two modalities, drawn independently per call. -/
def getitem_dual (st : DualState) (fs : String → Option Vol)
    (n1 n2 : ℕ → ℕ → ℕ → ℚ) (s1 s2 : ℚ) (idx : ℕ) :
    Except PyErr (DualState × DualOut) :=
  if st.phase = "train" then
    match st.paths[idx]? with
    | none => .error .indexError
    | some patient =>
      match patient.t1Matches with
      | [] => .error .indexError
      | t1p :: _ =>
        match fs t1p with
        | none => .error .assertionError
        | some img1 =>
          match patient.t2Matches with
          | [] => .error .indexError
          | t2p :: _ =>
            match fs t2p with
            | none => .error .assertionError
            | some img2 =>
              match training_data_process img1 n1 s1 st.input_D st.input_H
                  st.input_W with
              | .error e => .error e
              | .ok a1 =>
                match training_data_process img2 n2 s2 st.input_D st.input_H
                    st.input_W with
                | .error e => .error e
                | .ok a2 =>
                  match st.class_to_idx.lookup patient.parentName with
                  | none => .error .keyError
                  | some ci =>
                    .ok ({ st with
                            t1_image_list := st.t1_image_list ++ [t1p]
                            t2_image_list := st.t2_image_list ++ [t2p] },
                      .trainOut
                        (stack2 (nii2tensorarray_dual a1)
                          (nii2tensorarray_dual a2)) ci patient.pathStr)
  else if st.phase = "test" then
    match st.data_list[idx]? with
    | none => .error .indexError
    | some line =>
      match splitWs line with
      | [t1p, t2p] =>
        match fs t1p with
        | none => .error .assertionError
        | some img1 =>
          match fs t2p with
          | none => .error .assertionError
          | some img2 =>
            match testing_data_process img1 n1 s1 st.input_D st.input_H
                st.input_W with
            | .error e => .error e
            | .ok a1 =>
              match testing_data_process img2 n2 s2 st.input_D st.input_H
                  st.input_W with
              | .error e => .error e
              | .ok a2 =>
                .ok (st,
                  .testOut (stack2 (nii2tensorarray_dual a1)
                    (nii2tensorarray_dual a2)))
      | _ => .error .valueError
  else .ok (st, .noneOut)

/-- The post-call receiver state of a successful single-modality fetch. -/
def stOfS : Except PyErr (SingleState × SOut) → Option SingleState
  | .ok r => some r.1
  | .error _ => none

/-- The post-call receiver state of a successful dual-modality fetch. -/
def stOfD : Except PyErr (DualState × DualOut) → Option DualState
  | .ok r => some r.1
  | .error _ => none

/-- Value of a successful computation, or a default. -/
def okOrD {α : Type} (r : Except PyErr α) (d : α) : α :=
  match r with
  | .ok v => v
  | .error _ => d

/-- The externally supplied sampling configuration (`sets`). -/
structure Sets where
  input_D : ℕ
  input_H : ℕ
  input_W : ℕ
  phase : String

/-- The attribute record of a freshly created dual-modality
`CustomTumorDataset` object: every instance attribute starts unset
(Python raises `AttributeError` on reading an unset attribute). -/
structure DualObj where
  phase : Option String := none
  data_list : Option (List String) := none
  classes : Option (List String) := none
  class_to_idx : Option (List (String × ℕ)) := none
  paths : Option (List Patient) := none
  root_dir : Option String := none
  input_D : Option ℕ := none
  input_H : Option ℕ := none
  input_W : Option ℕ := none
  t1_image_list : Option (List String) := none
  t2_image_list : Option (List String) := none

/-- Reading a Python instance attribute: `AttributeError` if unset. -/
def optAttr {α : Type} : Option α → Except PyErr α
  | some v => .ok v
  | none => .error .attributeError

/-- The dual-modality `CustomTumorDataset.__init__(root_dir, sets)`,
statement by statement.  `manifestLines` are the lines of the
`sets.data_list` file, `entries` the `os.scandir(root_dir)` result and
`globResult` the `Path(root_dir).glob("*/*")` result.  The constructor
first branches on `self.phase` — an attribute that has not been assigned
yet (it is only set near the end of the constructor). -/
def dual_init (root_dir : String) (sets : Sets) (manifestLines : List String)
    (entries : List (String × Bool)) (globResult : List Patient) :
    Except PyErr DualObj := do
  let o : DualObj := {}
  let ph ← optAttr o.phase
  let o ←
    if ph = "test" then
      pure { o with data_list := some (manifestLines.map fun l => l.trim) }
    else if ph = "train" then
      match find_classes entries with
      | .error e => .error e
      | .ok (cs, m) =>
        pure { o with classes := some cs, class_to_idx := some m }
    else
      pure o
  pure { o with
    paths := some globResult
    root_dir := some root_dir
    input_D := some sets.input_D
    input_H := some sets.input_H
    input_W := some sets.input_W
    phase := some sets.phase
    t1_image_list := some []
    t2_image_list := some [] }

/-- Filesystem oracle for the dual train-mode example: two volume files. -/
def exFsTr : String → Option Vol := fun p =>
  if p = "p1" then some exVolC5 else if p = "p2" then some exVolC5 else none

/-- Example patient directory with one t1 and one t2 match. -/
def exPatient : Patient :=
  { pathStr := "root/A/pat1", parentName := "A",
    t1Matches := ["p1"], t2Matches := ["p2"] }

/-- Dual-modality train-mode state with one patient. -/
def exDualSt : DualState :=
  { data_list := [], classes := ["A"], class_to_idx := [("A", 0)],
    paths := [exPatient], root_dir := "root",
    input_D := 1, input_H := 1, input_W := 1, phase := "train",
    t1_image_list := [], t2_image_list := [] }

/-- Zero noise field. -/
def exNoise0 : ℕ → ℕ → ℕ → ℚ := fun _ _ _ => 0

/-- A 1×1×1 volume with value 1. -/
def exVolT : Vol := ⟨1, 1, 1, fun _ _ _ => 1⟩

/-- Filesystem oracle for the dual test-mode example. -/
def exFsTe : String → Option Vol := fun p =>
  if p = "a" then some exVolT else if p = "b" then some exVolT else none

/-- Dual-modality test-mode state whose manifest has one line `a b`. -/
def exDualStTe : DualState :=
  { data_list := ["a b"], classes := [], class_to_idx := [], paths := [],
    root_dir := "", input_D := 1, input_H := 1, input_W := 1,
    phase := "test", t1_image_list := [], t2_image_list := [] }

/-- Default output volume (used only as `okOrD` fallback). -/
def dfltOVol : OVol := ⟨0, 0, 0, fun _ _ _ => none⟩

/-- The processed volume of the test-mode example. -/
def exA1 : OVol := okOrD (testing_data_process exVolT exNoise0 0 1 1 1) dfltOVol

/-- Single-modality train-mode state with one file. -/
def exSingleSt : SingleState :=
  { root_dir := "root", paths := [{ pathStr := "f1", parentName := "A" }],
    classes := ["A"], class_to_idx := [("A", 0)],
    input_D := 1, input_H := 1, input_W := 1, phase := "train" }

/-- Filesystem oracle for the single-modality example. -/
def exFsS : String → Option Vol := fun p =>
  if p = "f1" then some exVolC5 else none

/-- `npRound` on an exact integer is that integer. -/
theorem npRound_natCast (t : ℕ) : npRound (t : ℚ) = t := by
  unfold npRound
  rw [Int.floor_natCast]
  norm_num

/-- With a nonzero source length, the zoomed axis length is exactly the
target length. -/
theorem outDim_eq (n target : ℕ) (hn : n ≠ 0) : outDim n target = target := by
  unfold outDim
  have hq : ((n : ℚ)) ≠ 0 := Nat.cast_ne_zero.mpr hn
  rw [mul_comm, div_mul_cancel₀ _ hq, npRound_natCast]
  exact Int.toNat_natCast target

/-- Zooming an axis onto its own length maps every output index to itself. -/
theorem zoomIdx_self (n o : ℕ) : zoomIdx n n o = o := by
  unfold zoomIdx
  have hfac :
      (if n = 1 then (1 : ℚ) else ((n : ℚ) - 1) / ((n : ℚ) - 1)) = 1 := by
    by_cases h : n = 1
    · simp [h]
    · rw [if_neg h, div_self]
      intro hzero
      exact h (Nat.cast_eq_one.mp (sub_eq_zero.mp hzero))
  rw [hfac, mul_one]
  have hfloor : Int.floor ((o : ℚ) + 1 / 2) = (o : ℤ) := by
    rw [Int.floor_eq_iff]
    constructor
    · push_cast
      linarith
    · push_cast
      linarith
  rw [hfloor]
  exact Int.toNat_natCast o

/-- C3 (amended): for every non-empty input volume and positive target
components, the Resampler's output shape is exactly `(W, D, H)` — the
source rescales axis 0 to `input_W`, axis 1 to `input_D` and axis 2 to
`input_H`, not `(D, H, W)`. -/
theorem C3_resize_shape (v : Vol) (D H W : ℕ)
    (h0 : 0 < v.d0) (h1 : 0 < v.d1) (h2 : 0 < v.d2)
    (_hD : 0 < D) (_hH : 0 < H) (_hW : 0 < W) :
    dimsOf (resize_data v D H W) = some (W, D, H) := by
  have hne : ¬(v.d0 = 0 ∨ v.d1 = 0 ∨ v.d2 = 0) := by omega
  simp [resize_data, hne, dimsOf,
    outDim_eq v.d0 W (Nat.pos_iff_ne_zero.mp h0),
    outDim_eq v.d1 D (Nat.pos_iff_ne_zero.mp h1),
    outDim_eq v.d2 H (Nat.pos_iff_ne_zero.mp h2)]

/-- C3 witness: a concrete 5×5×5 volume resampled with targets
`D = 2, H = 3, W = 4` gets shape `(4, 2, 3)`. -/
theorem C3_resize_shape_witness :
    0 < exVolC3.d0 ∧ dimsOf (resize_data exVolC3 2 3 4) = some (4, 2, 3) :=
  ⟨by decide, C3_resize_shape exVolC3 2 3 4 (by decide) (by decide) (by decide)
    (by decide) (by decide) (by decide)⟩

/-- C3 counterexample: with target shape `(D, H, W) = (2, 3, 4)` the first
output axis has length 4 (= W), not 2 (= D), refuting the claimed axis
assignment. -/
theorem C3_counterexample :
    dimsOf (resize_data exVolC3 2 3 4) = some (4, 2, 3) ∧
      (4, 2, 3) ≠ ((2, 3, 4) : ℕ × ℕ × ℕ) := by
  refine ⟨?_, by decide⟩
  simp [dimsOf, resize_data, exVolC3, outDim_eq]

/-- C9 (amended): if a volume's shape already equals the code's per-axis
targets — axis 0 of length `input_W`, axis 1 of length `input_D`, axis 2 of
length `input_H`, so that every scale factor is 1 — then the Resampler
returns it unchanged, and so does a second application. -/
theorem C9_resize_identity (v : Vol) (D H W : ℕ)
    (h0 : v.d0 = W) (h1 : v.d1 = D) (h2 : v.d2 = H)
    (hp0 : 0 < v.d0) (hp1 : 0 < v.d1) (hp2 : 0 < v.d2) :
    resize_data v D H W = .ok v ∧
      (resize_data v D H W >>= fun u => resize_data u D H W) = .ok v := by
  have hW : v.d0 ≠ 0 := Nat.pos_iff_ne_zero.mp hp0
  have hD : v.d1 ≠ 0 := Nat.pos_iff_ne_zero.mp hp1
  have hH : v.d2 ≠ 0 := Nat.pos_iff_ne_zero.mp hp2
  have hne : ¬(v.d0 = 0 ∨ v.d1 = 0 ∨ v.d2 = 0) := by tauto
  have e0 : outDim v.d0 W = v.d0 := (outDim_eq v.d0 W hW).trans h0.symm
  have e1 : outDim v.d1 D = v.d1 := (outDim_eq v.d1 D hD).trans h1.symm
  have e2 : outDim v.d2 H = v.d2 := (outDim_eq v.d2 H hH).trans h2.symm
  have hmain : resize_data v D H W = .ok v := by
    unfold resize_data
    rw [if_neg hne]
    congr 1
    apply Vol_ext_eq
    · exact e0
    · exact e1
    · exact e2
    · funext i j k
      show v.val (zoomIdx v.d0 (outDim v.d0 W) i) (zoomIdx v.d1 (outDim v.d1 D) j)
        (zoomIdx v.d2 (outDim v.d2 H) k) = v.val i j k
      rw [e0, e1, e2, zoomIdx_self, zoomIdx_self, zoomIdx_self]
  refine ⟨hmain, ?_⟩
  rw [hmain]
  exact hmain

/-- C9 witness: a concrete `(2, 3, 4)` volume with `W = 2, D = 3, H = 4`
(all scale factors 1) is returned unchanged, twice. -/
theorem C9_resize_identity_witness :
    resize_data exVolC9 3 4 2 = .ok exVolC9 ∧
      (resize_data exVolC9 3 4 2 >>= fun u => resize_data u 3 4 2) =
        .ok exVolC9 :=
  C9_resize_identity exVolC9 3 4 2 rfl rfl rfl (by decide) (by decide)
    (by decide)

/-- C9 counterexample: a volume whose shape equals the configured target
shape read as `(D, H, W) = (2, 3, 4)` is NOT returned unchanged — the
output shape is `(4, 2, 3)`. -/
theorem C9_counterexample : resize_data exVolC9b 2 3 4 ≠ .ok exVolC9b := by
  intro h
  have h2 := congrArg dimsOf h
  rw [show dimsOf (resize_data exVolC9b 2 3 4) = some (4, 2, 3) by
        simp [dimsOf, resize_data, exVolC9b, outDim_eq]] at h2
  simp [dimsOf, exVolC9b] at h2

/-- C1 (amended): with a nonempty foreground and nonzero std `s`
(`0 ≤ s`, `s ^ 2 = fgVar v`, i.e. `s` is numpy's `pixels.std()`), the
Intensity Normalizer keeps the input shape, z-scores every voxel as
`(v - mean)/s`, and then overwrites with a standard-normal sample exactly
those voxels whose ORIGINAL intensity equals 0 — voxels with negative
(non-positive but nonzero) intensity retain their z-scored value. -/
theorem C1_normalize_zero_mask (v : Vol) (noise : ℕ → ℕ → ℕ → ℚ) (s : ℚ)
    (hfg : fgPixels v ≠ []) (_hs0 : 0 ≤ s) (_hvar : s ^ 2 = fgVar v)
    (hs : s ≠ 0) :
    ((itensity_normalize v noise s).d0 = v.d0 ∧
      (itensity_normalize v noise s).d1 = v.d1 ∧
      (itensity_normalize v noise s).d2 = v.d2) ∧
    (∀ i j k, v.val i j k = 0 →
      (itensity_normalize v noise s).val i j k = some (noise i j k)) ∧
    (∀ i j k, v.val i j k ≠ 0 →
      (itensity_normalize v noise s).val i j k =
        some ((v.val i j k - fgMean v) / s)) := by
  refine ⟨⟨rfl, rfl, rfl⟩, ?_, ?_⟩ <;>
    · intro i j k h
      simp [itensity_normalize, h, hfg, hs]

/-- C1 witness: on the concrete example the foreground voxel at `(0,0,1)`
(value 1) is z-scored with the foreground statistics. -/
theorem C1_normalize_zero_mask_witness :
    fgPixels exVolC1 ≠ [] ∧ (0 : ℚ) ≤ 1 ∧ (1 : ℚ) ^ 2 = fgVar exVolC1 ∧
      (itensity_normalize exVolC1 exNoiseC1 1).val 0 0 1 =
        some ((exVolC1.val 0 0 1 - fgMean exVolC1) / 1) := by
  have hp : fgPixels exVolC1 = [1, 3] := by decide
  have hvar : fgVar exVolC1 = 1 := by
    rw [fgVar, hp]
    norm_num [listVar, listMean]
  exact ⟨by decide, by norm_num, by rw [hvar]; norm_num,
    (C1_normalize_zero_mask exVolC1 exNoiseC1 1 (by decide) (by norm_num)
        (by rw [hvar]; norm_num) (by norm_num)).2.2 0 0 1 (by decide)⟩

/-- C1 counterexample: the voxel at `(0,0,3)` of `exVolC1` has intensity
`-2 ≤ 0` (background per the claim), yet the output keeps its z-scored
value `(-2 - 2)/1 = -4` instead of the noise sample `5` — so the claim
that every non-positive voxel is overwritten is false. -/
theorem C1_counterexample :
    exVolC1.val 0 0 3 ≤ 0 ∧ (0 : ℚ) ≤ 1 ∧ (1 : ℚ) ^ 2 = fgVar exVolC1 ∧
      (itensity_normalize exVolC1 exNoiseC1 1).val 0 0 3 =
        some ((exVolC1.val 0 0 3 - fgMean exVolC1) / 1) ∧
      (itensity_normalize exVolC1 exNoiseC1 1).val 0 0 3 = some (-4) ∧
      (itensity_normalize exVolC1 exNoiseC1 1).val 0 0 3 ≠
        some (exNoiseC1 0 0 3) := by
  have hp : fgPixels exVolC1 = [1, 3] := by decide
  have hmean : fgMean exVolC1 = 2 := by
    rw [fgMean, hp]
    norm_num [listMean]
  have hvar : fgVar exVolC1 = 1 := by
    rw [fgVar, hp]
    norm_num [listVar, listMean]
  have hv3 : exVolC1.val 0 0 3 = -2 := by decide
  refine ⟨by decide, by norm_num, by rw [hvar]; norm_num, ?_, ?_, ?_⟩ <;>
    norm_num [itensity_normalize, hv3, hp, hmean, exNoiseC1] <;>
    exact fun h => absurd h (by decide)

/-- C2 (code behaviour at the failing input): on an all-zero volume the
foreground selection is empty; numpy's `mean`/`std` of an empty slice only
emit a RuntimeWarning and return NaN, no exception is raised, and the
final mask assignment then replaces every voxel (all are zero) with its
standard-normal sample.  The normalizer therefore returns a fully defined
noise volume: no fatal error, and not even a NaN in the output. -/
theorem C2_allzero_silent :
    itensity_normalize exVolC2 exNoiseC2 0 =
      { d0 := 2, d1 := 2, d2 := 2,
        val := fun i j k => some (exNoiseC2 i j k) } := by
  apply OVol_ext_eq
  · rfl
  · rfl
  · rfl
  · funext i j k
    simp [itensity_normalize, exVolC2]

/-- A left `min`-fold over a list lands in the list (start included). -/
theorem foldl_min_mem (xs : List ℕ) (x : ℕ) : xs.foldl min x ∈ x :: xs := by
  induction xs generalizing x with
  | nil => simp
  | cons y ys ih =>
    simp only [List.foldl_cons]
    rcases List.mem_cons.mp (ih (min x y)) with h1 | h1
    · rw [h1]
      rcases min_choice x y with hc | hc <;> rw [hc] <;> simp
    · exact List.mem_cons_of_mem _ (List.mem_cons_of_mem _ h1)

/-- A left `min`-fold over a list is a lower bound of the start and every
element. -/
theorem foldl_min_le (xs : List ℕ) (x : ℕ) : ∀ y ∈ x :: xs, xs.foldl min x ≤ y := by
  induction xs generalizing x with
  | nil =>
    intro y hy
    rw [List.mem_singleton] at hy
    exact hy ▸ le_refl x
  | cons z zs ih =>
    intro y hy
    simp only [List.foldl_cons]
    have hstart := ih (min x z) (min x z) (List.mem_cons_self _ _)
    rcases List.mem_cons.mp hy with h1 | h1
    · rw [h1]
      exact le_trans hstart (min_le_left x z)
    · rcases List.mem_cons.mp h1 with h2 | h2
      · rw [h2]
        exact le_trans hstart (min_le_right x z)
      · exact ih (min x z) y (List.mem_cons_of_mem _ h2)

/-- A left `max`-fold over a list lands in the list (start included). -/
theorem foldl_max_mem (xs : List ℕ) (x : ℕ) : xs.foldl max x ∈ x :: xs := by
  induction xs generalizing x with
  | nil => simp
  | cons y ys ih =>
    simp only [List.foldl_cons]
    rcases List.mem_cons.mp (ih (max x y)) with h1 | h1
    · rw [h1]
      rcases max_choice x y with hc | hc <;> rw [hc] <;> simp
    · exact List.mem_cons_of_mem _ (List.mem_cons_of_mem _ h1)

/-- A left `max`-fold over a list is an upper bound of the start and every
element. -/
theorem le_foldl_max (xs : List ℕ) (x : ℕ) : ∀ y ∈ x :: xs, y ≤ xs.foldl max x := by
  induction xs generalizing x with
  | nil =>
    intro y hy
    rw [List.mem_singleton] at hy
    exact hy ▸ le_refl x
  | cons z zs ih =>
    intro y hy
    simp only [List.foldl_cons]
    have hstart := ih (max x z) (max x z) (List.mem_cons_self _ _)
    rcases List.mem_cons.mp hy with h1 | h1
    · rw [h1]
      exact le_trans (le_max_left x z) hstart
    · rcases List.mem_cons.mp h1 with h2 | h2
      · rw [h2]
        exact le_trans (le_max_right x z) hstart
      · exact ih (max x z) y (List.mem_cons_of_mem _ h2)

/-- Membership in `allIdx` is exactly being in range on all three axes. -/
theorem mem_allIdx (v : Vol) (p : ℕ × ℕ × ℕ) :
    p ∈ allIdx v ↔ p.1 < v.d0 ∧ p.2.1 < v.d1 ∧ p.2.2 < v.d2 := by
  obtain ⟨i, j, k⟩ := p
  simp only [allIdx, List.mem_flatMap, List.mem_map, List.mem_range, Prod.mk.injEq]
  constructor
  · rintro ⟨a, ha, b, hb, c, hc, rfl, rfl, rfl⟩
    exact ⟨ha, hb, hc⟩
  · rintro ⟨hi, hj, hk⟩
    exact ⟨i, hi, j, hj, k, hk, rfl, rfl, rfl⟩

/-- Unfolding equation of the Range Clipper at a nonempty differing set. -/
theorem drop_invalid_range_cons (v : Vol) (p : ℕ × ℕ × ℕ)
    (rest : List (ℕ × ℕ × ℕ)) (h : diffList v = p :: rest) :
    drop_invalid_range v =
      .ok { d0 := listMaxD ((p :: rest).map fun q => q.1) -
                  listMinD ((p :: rest).map fun q => q.1)
            d1 := listMaxD ((p :: rest).map fun q => q.2.1) -
                  listMinD ((p :: rest).map fun q => q.2.1)
            d2 := listMaxD ((p :: rest).map fun q => q.2.2) -
                  listMinD ((p :: rest).map fun q => q.2.2)
            val := fun i j k =>
              v.val (listMinD ((p :: rest).map fun q => q.1) + i)
                    (listMinD ((p :: rest).map fun q => q.2.1) + j)
                    (listMinD ((p :: rest).map fun q => q.2.2) + k) } := by
  unfold drop_invalid_range
  rw [h]

/-- C5 (confirmed): when at least one voxel differs from the background
value at `(0,0,0)`, the Range Clipper returns exactly the sub-volume from
the per-axis minimum differing index (inclusive) to the per-axis maximum
differing index (exclusive).  The bounds are genuine minima/maxima of the
differing-index set — attained by differing voxels and bounding all of
them — so the plane/row/column at each axis's maximum index holds valid
signal yet is dropped by the exclusive upper bound of `crop`. -/
theorem C5_drop_bbox (v : Vol) (hne : diffList v ≠ []) :
    drop_invalid_range v =
      .ok (crop v (minZb v) (minYb v) (minXb v) (maxZb v) (maxYb v)
        (maxXb v)) ∧
    (minZb v ∈ (diffList v).map fun q => q.1) ∧
    (maxZb v ∈ (diffList v).map fun q => q.1) ∧
    (minYb v ∈ (diffList v).map fun q => q.2.1) ∧
    (maxYb v ∈ (diffList v).map fun q => q.2.1) ∧
    (minXb v ∈ (diffList v).map fun q => q.2.2) ∧
    (maxXb v ∈ (diffList v).map fun q => q.2.2) ∧
    ∀ q ∈ diffList v,
      minZb v ≤ q.1 ∧ q.1 ≤ maxZb v ∧ minYb v ≤ q.2.1 ∧ q.2.1 ≤ maxYb v ∧
        minXb v ≤ q.2.2 ∧ q.2.2 ≤ maxXb v := by
  rcases hl : diffList v with _ | ⟨p, rest⟩
  · exact absurd hl hne
  refine ⟨?_, ?_, ?_, ?_, ?_, ?_, ?_, ?_⟩
  · rw [drop_invalid_range_cons v p rest hl]
    simp only [crop, minZb, minYb, minXb, maxZb, maxYb, maxXb, hl]
  · rw [minZb, hl]
    simp only [List.map_cons, listMinD]
    exact foldl_min_mem _ _
  · rw [maxZb, hl]
    simp only [List.map_cons, listMaxD]
    exact foldl_max_mem _ _
  · rw [minYb, hl]
    simp only [List.map_cons, listMinD]
    exact foldl_min_mem _ _
  · rw [maxYb, hl]
    simp only [List.map_cons, listMaxD]
    exact foldl_max_mem _ _
  · rw [minXb, hl]
    simp only [List.map_cons, listMinD]
    exact foldl_min_mem _ _
  · rw [maxXb, hl]
    simp only [List.map_cons, listMaxD]
    exact foldl_max_mem _ _
  · intro q hq
    have hz : q.1 ∈ (p :: rest).map fun r => r.1 := List.mem_map_of_mem _ hq
    have hy : q.2.1 ∈ (p :: rest).map fun r => r.2.1 :=
      List.mem_map_of_mem _ hq
    have hx : q.2.2 ∈ (p :: rest).map fun r => r.2.2 :=
      List.mem_map_of_mem _ hq
    simp only [List.map_cons] at hz hy hx
    refine ⟨?_, ?_, ?_, ?_, ?_, ?_⟩ <;>
      simp only [minZb, minYb, minXb, maxZb, maxYb, maxXb, hl,
        List.map_cons, listMinD, listMaxD]
    · exact foldl_min_le _ _ _ hz
    · exact le_foldl_max _ _ _ hz
    · exact foldl_min_le _ _ _ hy
    · exact le_foldl_max _ _ _ hy
    · exact foldl_min_le _ _ _ hx
    · exact le_foldl_max _ _ _ hx

/-- C5 witness: on the concrete example (differing voxels at `(0,0,1)` and
`(2,2,2)`) the clipper returns the half-open bounding box; on axis 2 the
bounds are 1 and 2, so the output has extent 1 there and the differing
voxel at `k = 2` is dropped. -/
theorem C5_drop_bbox_witness :
    diffList exVolC5 ≠ [] ∧
      drop_invalid_range exVolC5 =
        .ok (crop exVolC5 (minZb exVolC5) (minYb exVolC5) (minXb exVolC5)
          (maxZb exVolC5) (maxYb exVolC5) (maxXb exVolC5)) ∧
      minXb exVolC5 = 1 ∧ maxXb exVolC5 = 2 :=
  ⟨by decide, (C5_drop_bbox exVolC5 (by decide)).1, by decide, by decide⟩

/-- C6 (confirmed): on a volume in which every in-range voxel equals the
background value at `(0,0,0)` (in particular any constant volume), the
differing-index set is empty and `np.max` of the empty array raises
`ValueError` — a fatal error for that example. -/
theorem C6_drop_const_error (v : Vol)
    (_h0 : 0 < v.d0) (_h1 : 0 < v.d1) (_h2 : 0 < v.d2)
    (hconst : ∀ i j k, i < v.d0 → j < v.d1 → k < v.d2 →
      v.val i j k = v.val 0 0 0) :
    drop_invalid_range v = .error .valueError := by
  have hd : diffList v = [] := by
    rw [diffList, List.filter_eq_nil_iff]
    intro p hp
    have hm := (mem_allIdx v p).mp hp
    simp [hconst p.1 p.2.1 p.2.2 hm.1 hm.2.1 hm.2.2]
  unfold drop_invalid_range
  rw [hd]

/-- C6 witness: the constant 2×2×2 volume with value 7 everywhere makes the
Range Clipper fail with `ValueError`. -/
theorem C6_drop_const_error_witness :
    0 < exVolC6.d0 ∧ drop_invalid_range exVolC6 = .error .valueError :=
  ⟨by decide, C6_drop_const_error exVolC6 (by decide) (by decide) (by decide)
    fun _ _ _ _ _ _ => rfl⟩

/-- `lexLe` is transitive. -/
theorem lexLe_trans (xs ys zs : List Char) (h1 : lexLe xs ys = true)
    (h2 : lexLe ys zs = true) : lexLe xs zs = true := by
  induction xs generalizing ys zs with
  | nil => rfl
  | cons a as ih =>
    cases ys with
    | nil => simp [lexLe] at h1
    | cons b bs =>
      cases zs with
      | nil => simp [lexLe] at h2
      | cons c cs =>
        simp only [lexLe] at h1 h2 ⊢
        by_cases hab : a.toNat < b.toNat <;>
          by_cases hba : b.toNat < a.toNat <;>
          by_cases hbc : b.toNat < c.toNat <;>
          by_cases hcb : c.toNat < b.toNat <;>
          simp only [hab, hba, hbc, hcb, if_true, if_false] at h1 h2 ⊢ <;>
          first
            | exact absurd h1 (by decide)
            | exact absurd h2 (by decide)
            | omega
            | rw [if_pos (by omega)]
            | (rw [if_neg (by omega), if_neg (by omega)]; exact ih bs cs h1 h2)

/-- `lexLe` is total. -/
theorem lexLe_total (xs ys : List Char) :
    lexLe xs ys = true ∨ lexLe ys xs = true := by
  induction xs generalizing ys with
  | nil => left; rfl
  | cons a as ih =>
    cases ys with
    | nil => right; rfl
    | cons b bs =>
      by_cases h1 : a.toNat < b.toNat
      · left; simp [lexLe, h1]
      · by_cases h2 : b.toNat < a.toNat
        · right; simp [lexLe, h2]
        · rcases ih bs with h | h
          · left; simp [lexLe, h1, h2, h]
          · right; simp [lexLe, h1, h2, h]

/-- Looking up the `i`-th element of a duplicate-free list in the reversed
enumeration association list yields its index. -/
theorem lookup_enumFrom (cs : List String) (n : ℕ) (hnd : cs.Nodup) :
    ∀ i (hi : i < cs.length),
      (((List.enumFrom n cs).map fun p => (p.2, p.1)).lookup cs[i]) =
        some (n + i) := by
  induction cs generalizing n with
  | nil =>
    intro i hi
    simp at hi
  | cons c cs ih =>
    intro i hi
    cases i with
    | zero =>
      simp [List.enumFrom, List.lookup]
    | succ m =>
      have hm : m < cs.length := by simpa using hi
      have hne : c ≠ cs[m] := by
        intro h
        exact (List.nodup_cons.mp hnd).1 (h ▸ cs.getElem_mem hm)
      have hbeq : (cs[m] == c) = false :=
        beq_eq_false_iff_ne.mpr fun h => hne h.symm
      simp only [List.enumFrom, List.map_cons, List.lookup,
        List.getElem_cons_succ, hbeq]
      rw [ih (n + 1) (List.nodup_cons.mp hnd).2 m hm]
      congr 1
      omega

/-- C8 (confirmed): the Class Table is built by sorting the immediate
subdirectory names (Python's string order) and assigning consecutive
indices `0, 1, ...` in sorted order; a root with no subdirectories raises
`FileNotFoundError`. -/
theorem C8_find_classes (entries : List (String × Bool)) :
    (dirNames entries = [] →
      find_classes entries = .error .fileNotFoundError) ∧
    (dirNames entries ≠ [] → (find_classes entries).isOk = true) ∧
    (∀ cs m, find_classes entries = .ok (cs, m) →
      List.Sorted strLe cs ∧ cs.Perm (dirNames entries) ∧
      (cs.Nodup → ∀ i (hi : i < cs.length), m.lookup cs[i] = some i)) := by
  haveI : IsTotal String strLe := ⟨fun a b => lexLe_total a.data b.data⟩
  haveI : IsTrans String strLe :=
    ⟨fun a b c => lexLe_trans a.data b.data c.data⟩
  refine ⟨?_, ?_, ?_⟩
  · intro h
    simp [find_classes, h]
  · intro h
    have hp := List.perm_insertionSort strLe (dirNames entries)
    have hne : List.insertionSort strLe (dirNames entries) ≠ [] := by
      intro hcon
      rw [hcon] at hp
      exact h (List.Perm.eq_nil hp.symm)
    simp [find_classes, hne, Except.isOk, Except.toBool]
  · intro cs m hok
    unfold find_classes at hok
    by_cases hne : List.insertionSort strLe (dirNames entries) = []
    · simp [hne] at hok
    · rw [if_neg hne] at hok
      simp only [Except.ok.injEq, Prod.mk.injEq] at hok
      obtain ⟨hcs, hm⟩ := hok
      subst hcs
      subst hm
      refine ⟨List.sorted_insertionSort strLe _,
        List.perm_insertionSort strLe _, ?_⟩
      intro hnd i hi
      have h := lookup_enumFrom (List.insertionSort strLe (dirNames entries))
        0 hnd i hi
      simpa using h

/-- C8 witness: the scan `[B (dir), A (dir), c.txt (file)]` yields the
sorted class list `[A, B]` with `A → 0` and `B → 1`. -/
theorem C8_find_classes_witness :
    find_classes exEntriesC8 = .ok (["A", "B"], [("A", 0), ("B", 1)]) ∧
      List.Sorted strLe ["A", "B"] ∧
      (([("A", 0), ("B", 1)] : List (String × ℕ)).lookup "A" = some 0) ∧
      (([("A", 0), ("B", 1)] : List (String × ℕ)).lookup "B" = some 1) := by
  have hok : find_classes exEntriesC8 =
      .ok (["A", "B"], [("A", 0), ("B", 1)]) := by rfl
  have h := (C8_find_classes exEntriesC8).2.2 ["A", "B"]
    [("A", 0), ("B", 1)] hok
  refine ⟨hok, h.1, ?_, ?_⟩
  · exact h.2.2 (by decide) 0 (by decide)
  · exact h.2.2 (by decide) 1 (by decide)

/-- C4 (amended): a successful single-modality fetch writes no field of the
enumerator (the returned state equals the receiver); a successful
dual-modality fetch outside train mode writes no field; a successful
dual-modality train-mode fetch leaves every field unchanged EXCEPT
`t1_image_list` and `t2_image_list`, to each of which it appends the
resolved volume path — so the fetch is not stateless in that case. -/
theorem C4_fetch_frame :
    (∀ st fs noise s idx r,
      getitem_single st fs noise s idx = .ok r → r.1 = st) ∧
    (∀ st fs n1 n2 s1 s2 idx r, getitem_dual st fs n1 n2 s1 s2 idx = .ok r →
      st.phase ≠ "train" → r.1 = st) ∧
    (∀ st fs n1 n2 s1 s2 idx r, getitem_dual st fs n1 n2 s1 s2 idx = .ok r →
      st.phase = "train" →
      r.1.data_list = st.data_list ∧ r.1.classes = st.classes ∧
      r.1.class_to_idx = st.class_to_idx ∧ r.1.paths = st.paths ∧
      r.1.root_dir = st.root_dir ∧ r.1.input_D = st.input_D ∧
      r.1.input_H = st.input_H ∧ r.1.input_W = st.input_W ∧
      r.1.phase = st.phase ∧
      ∃ p1 p2, r.1.t1_image_list = st.t1_image_list ++ [p1] ∧
        r.1.t2_image_list = st.t2_image_list ++ [p2]) := by
  refine ⟨?_, ?_, ?_⟩
  · intro st fs noise s idx r h
    unfold getitem_single at h
    repeat' split at h
    all_goals first
      | exact Except.noConfusion h
      | (injection h with h2; subst h2; rfl)
  · intro st fs n1 n2 s1 s2 idx r h hph
    unfold getitem_dual at h
    rw [if_neg hph] at h
    repeat' split at h
    all_goals first
      | exact Except.noConfusion h
      | (injection h with h2; subst h2; rfl)
  · intro st fs n1 n2 s1 s2 idx r h hph
    unfold getitem_dual at h
    rw [if_pos hph] at h
    repeat' split at h
    all_goals first
      | exact Except.noConfusion h
      | (injection h with h2; subst h2;
          exact ⟨rfl, rfl, rfl, rfl, rfl, rfl, rfl, rfl, rfl, _, _, rfl, rfl⟩)

/-- C4 witness: a successful single-modality train fetch returns the
receiver state unchanged. -/
theorem C4_fetch_frame_witness :
    stOfS (getitem_single exSingleSt exFsS exNoise0 1 0) = some exSingleSt := by
  have h : getitem_single exSingleSt exFsS exNoise0 1 0 =
      .ok (okOrD (getitem_single exSingleSt exFsS exNoise0 1 0)
        (exSingleSt, .noneOut)) := rfl
  rw [h, stOfS]
  exact congrArg some
    (C4_fetch_frame.1 exSingleSt exFsS exNoise0 1 0 _ h)

/-- C4 counterexample: a successful dual-modality train fetch returns a
state whose `t1_image_list`/`t2_image_list` have grown by the fetched
paths, so the enumerator state after the fetch does NOT equal its state at
construction. -/
theorem C4_counterexample :
    stOfD (getitem_dual exDualSt exFsTr exNoise0 exNoise0 1 1 0) =
      some { exDualSt with t1_image_list := ["p1"],
                           t2_image_list := ["p2"] } ∧
    stOfD (getitem_dual exDualSt exFsTr exNoise0 exNoise0 1 1 0) ≠
      some exDualSt := by decide

/-- C7 (confirmed): in test mode the dual-modality fetch loads the two
manifest paths, runs each volume through `__testing_data_process__` —
which is exactly the train pipeline with the Range Clipper step removed,
as the second conjunct states: train processing = clip, then test
processing — and returns only the packed two-channel tensor: no label and
no source-path string (constructor `DualOut.testOut` carries nothing
else), leaving the state untouched. -/
theorem C7_test_mode (st : DualState) (fs : String → Option Vol)
    (n1 n2 : ℕ → ℕ → ℕ → ℚ) (s1 s2 : ℚ) (idx : ℕ)
    (hph : st.phase = "test")
    (line : String) (hline : st.data_list[idx]? = some line)
    (t1p t2p : String) (hsplit : splitWs line = [t1p, t2p])
    (v1 : Vol) (h1 : fs t1p = some v1)
    (v2 : Vol) (h2 : fs t2p = some v2)
    (a1 : OVol)
    (hp1 : testing_data_process v1 n1 s1 st.input_D st.input_H st.input_W =
      .ok a1)
    (a2 : OVol)
    (hp2 : testing_data_process v2 n2 s2 st.input_D st.input_H st.input_W =
      .ok a2) :
    getitem_dual st fs n1 n2 s1 s2 idx = .ok (st, .testOut [a1, a2]) ∧
    ∀ v noise s D H W,
      training_data_process v noise s D H W =
        drop_invalid_range v >>= fun c =>
          testing_data_process c noise s D H W := by
  constructor
  · unfold getitem_dual
    simp only [hph, hline, hsplit, h1, h2, hp1, hp2, nii2tensorarray_dual,
      stack2]
    rfl
  · intro v noise s D H W
    unfold training_data_process testing_data_process
    cases hd : drop_invalid_range v <;>
      simp [hd, Bind.bind, Except.bind, testing_data_process]

/-- C7 witness: a concrete test-mode fetch over the one-line manifest
`a b` returns only the packed tensor of the two test-processed volumes. -/
theorem C7_test_mode_witness :
    getitem_dual exDualStTe exFsTe exNoise0 exNoise0 0 0 0 =
      .ok (exDualStTe, .testOut [exA1, exA1]) :=
  (C7_test_mode exDualStTe exFsTe exNoise0 exNoise0 0 0 0 rfl "a b" rfl
    "a" "b" (by decide) exVolT rfl exVolT rfl exA1 rfl exA1 rfl).1

/-- C10 (confirmed): the dual-modality constructor reads `self.phase`
before any assignment to it (the assignment `self.phase = sets.phase`
only happens later in `__init__`), so construction always raises
`AttributeError`, for every root directory, settings object, manifest,
directory scan and glob result. -/
theorem C10_dual_init_fails (root_dir : String) (sets : Sets)
    (manifestLines : List String) (entries : List (String × Bool))
    (globResult : List Patient) :
    dual_init root_dir sets manifestLines entries globResult =
      .error .attributeError := rfl
